import Mathlib

/-!
Shallow embedding of `telethon/events/callbackquery.py`: the `CallbackQuery`
event builder and its `Event` class (sender resolution, lazy message fetch,
idempotent acknowledgment, and the respond/reply/edit/delete actions).

External collaborators (transport client, session cache, chat-context
resolver) are modelled as an environment record whose fields hold the
outcome each collaborator would produce, following §6 of the spec; the
code of this file is translated from the Python source, statement by
statement, with `await` suspension points made explicit through traces.
-/

namespace CallbackQuerySpec

/-- A Telegram peer reference (`PeerUser`/`PeerChat`/`PeerChannel`). -/
inductive Peer where
  | user (id : Int)
  | chat (id : Int)
  | channel (id : Int)
deriving DecidableEq

/-- The raw `types.UpdateBotCallbackQuery` update payload. -/
structure UpdateBotCallbackQuery where
  query_id : Nat
  user_id : Int
  peer : Peer
  msg_id : Int
  data : List Nat
deriving DecidableEq

/-- An input peer reference as produced by `utils.get_input_peer` or the
session cache.  `selfRef` models `InputPeerSelf` (which carries no
`access_hash` attribute), `noHash` models peers such as `InputPeerChat`
that also lack the attribute, and `withHash` models peers carrying an
`access_hash` attribute whose value may be `None`. -/
inductive InputPeer where
  | selfRef
  | noHash (id : Int)
  | withHash (id : Int) (access_hash : Option Int)
deriving DecidableEq

/-- Truthiness of the Python expression
`getattr(input_peer, 'access_hash', True)`: peers without the attribute
default to `True`; an attribute equal to `None` or `0` is falsy. -/
def InputPeer.accessHashTruthy : InputPeer → Bool
  | .selfRef => true
  | .noHash _ => true
  | .withHash _ none => false
  | .withHash _ (some h) => h != 0

/-- A full entity (`User`/`Chat`) stored in the `_entities` snapshot.
Entity objects are always truthy in Python. -/
structure Entity where
  id : Int
deriving DecidableEq

/-- A fetched `Message`, carrying its own already-resolved sender slots
(`m._sender` / `m._input_sender`), which `_refetch_sender` may adopt. -/
structure Message where
  sender : Option Entity
  input_sender : Option InputPeer
deriving DecidableEq

/-- `ValueError`, the only exception the modelled collaborators document
raising (entity/message not found); the source catches exactly it. -/
inductive ValueError where
  | mk
deriving DecidableEq

/-- An opaque failure of a transport (RPC) call; never caught by this core. -/
inductive RpcError where
  | mk (code : Nat)
deriving DecidableEq

/-- Result object of `SetBotCallbackAnswerRequest`, opaque here. -/
abbrev Ack := Nat

/-- Result object of `send_message` / `edit_message`, opaque here. -/
abbrev SentMessage := Nat

/-- Result object of `delete_messages`, opaque here. -/
abbrev DeleteReport := Nat

/-- A request issued to a collaborator, recorded in traces. -/
inductive Call where
  | setBotCallbackAnswer (query_id : Nat) (cache_time : Int) (alert : Bool)
      (message : Option String) (url : Option String)
  | getMessages (chat : Option InputPeer) (ids : Int)
  | sessionGetInputEntity (id : Int)
  | sendMessage (chat : InputPeer) (reply_to : Option Int) (content : String)
  | editMessage (chat : InputPeer) (msg_id : Int) (content : String)
  | deleteMessages (chat : InputPeer) (ids : List Int)
deriving DecidableEq

/-- Observable execution events of a response action, in program order:
the acknowledgment task being handed to the loop (`loop.create_task`),
the `_answered` latch flipping to true, a collaborator request being
issued, and a collaborator request resolving (with success or failure). -/
inductive Ev where
  | taskScheduled
  | answeredSet
  | issued (c : Call)
  | resolved (c : Call)
deriving DecidableEq

/-- Modelled from the spec: the collaborator outcomes (§6).  `input_chat`
is what `get_input_chat()` resolves to; `input_peer_of_chat` is
`utils.get_input_peer(self._chat)`; `session_input_entity` is the session
cache's answer for the sender id (failing with `ValueError` when unknown);
`fetch_message` is `client.get_messages` (failing with `ValueError` on
not-found); the four `*_reply` fields are the transport outcomes of the
acknowledgment, send, edit and delete requests. -/
structure Env where
  input_chat : InputPeer
  input_peer_of_chat : InputPeer
  session_input_entity : Except ValueError InputPeer
  fetch_message : Except ValueError Message
  ack_reply : Except RpcError Ack
  send_reply : Except RpcError SentMessage
  edit_reply : Except RpcError SentMessage
  delete_reply : Except RpcError DeleteReport

/-- The mutable state of one `CallbackQuery.Event` instance. -/
structure Event where
  query : UpdateBotCallbackQuery
  chat_peer : Peer
  entities : List (Int × Entity)
  sender : Option Entity
  input_sender : Option InputPeer
  message : Option Message
  answered : Bool
deriving DecidableEq

/-- `Event.__init__(query)`: stores the query, mirrors
`chat_peer=query.peer`, and initialises the lazy slots and the latch. -/
def Event.ofQuery (q : UpdateBotCallbackQuery) : Event :=
  { query := q
    chat_peer := q.peer
    entities := []
    sender := none
    input_sender := none
    message := none
    answered := false }

/-- `self._sender_id`, set at construction to `query.user_id`. -/
def Event.sender_id (e : Event) : Int := e.query.user_id

/-- `self.id`: the query id property. -/
def Event.id (e : Event) : Nat := e.query.query_id

/-- `self.message_id`: the message id property. -/
def Event.message_id (e : Event) : Int := e.query.msg_id

/-- `self.data`: the payload property. -/
def Event.payload (e : Event) : List Nat := e.query.data

/-- Modelled from the spec: `ChatGetter.is_channel` (the boolean
capability of §6), true when the event's chat peer is a channel. -/
def Event.is_channel (e : Event) : Bool :=
  match e.chat_peer with
  | .channel _ => true
  | _ => false

/-- `dict.get` on the `_entities` snapshot. -/
def lookupEntity (entities : List (Int × Entity)) (i : Int) : Option Entity :=
  (entities.find? (fun p => p.1 == i)).map (fun p => p.2)

/-- `Event.get_message`: returns the cached message if present; otherwise
resolves the input chat when in a channel and fetches the message by id,
catching `ValueError` (returning `none` and leaving the slot unset), and
caching the message on success.  Returns the Python result, the updated
state and the collaborator requests issued. -/
def Event.get_message (env : Env) (e : Event) :
    Except ValueError (Option Message × Event × List Call) :=
  match e.message with
  | some m => .ok (some m, e, [])
  | none =>
    let chat : Option InputPeer := if e.is_channel then some env.input_chat else none
    match env.fetch_message with
    | .error _ => .ok (none, e, [Call.getMessages chat e.query.msg_id])
    | .ok m => .ok (some m, { e with message := some m },
        [Call.getMessages chat e.query.msg_id])

/-- `Event._refetch_sender`: the sender-resolution chain.  Assigns
`_sender` from the entity snapshot (returning early when absent), derives
`_input_sender` from the chat context, and when that reference's access
hash is falsy escalates to the session cache, falling back on failure to
the fetched message's own sender slots. -/
def Event.refetch_sender (env : Env) (e : Event) :
    Except ValueError (Event × List Call) :=
  let e1 := { e with sender := lookupEntity e.entities e.sender_id }
  match e1.sender with
  | none => .ok (e1, [])
  | some _ =>
    let e2 := { e1 with input_sender := some env.input_peer_of_chat }
    if env.input_peer_of_chat.accessHashTruthy then .ok (e2, [])
    else
      match env.session_input_entity with
      | .ok ip => .ok ({ e2 with input_sender := some ip },
          [Call.sessionGetInputEntity e.sender_id])
      | .error _ =>
        match e2.get_message env with
        | .error err => .error err
        | .ok (mres, e3, calls) =>
          match mres with
          | some m => .ok ({ e3 with sender := m.sender, input_sender := m.input_sender },
              Call.sessionGetInputEntity e.sender_id :: calls)
          | none => .ok (e3, Call.sessionGetInputEntity e.sender_id :: calls)

/-- `Event.answer(message, cache_time, url, alert)`: if already answered,
returns immediately (no request, no result); otherwise flips the latch
*then* issues the single acknowledgment request and returns its transport
outcome.  The trace records the latch flip before the request. -/
def Event.answer (env : Env) (e : Event) (message : Option String)
    (cache_time : Int) (url : Option String) (alert : Bool) :
    Except RpcError (Option Ack) × Event × List Ev :=
  if e.answered then (.ok none, e, [])
  else
    let e1 := { e with answered := true }
    let c := Call.setBotCallbackAnswer e.query.query_id cache_time alert message url
    match env.ack_reply with
    | .ok a => (.ok (some a), e1, [Ev.answeredSet, Ev.issued c, Ev.resolved c])
    | .error err => (.error err, e1, [Ev.answeredSet, Ev.issued c, Ev.resolved c])

/-- The body of `self.answer()` (all defaults) when run as the detached
task created by the response actions; its transport result is discarded. -/
def Event.answer_task (env : Env) (e : Event) : Event × List Ev :=
  let r := Event.answer env e none 0 none false
  (r.2.1, r.2.2)

/-- Arguments forwarded by the response actions to `send_message`.  Only
the reply-to option and an opaque content are distinguished, since only
they matter to this core's contracts. -/
structure SendArgs where
  content : String
  reply_to : Option Int
deriving DecidableEq

/-- `Event.respond`: creates the detached acknowledgment task, resolves
the input chat and sends a standalone message there, returning the send
outcome.  Under the cooperative scheduling model the detached task body
runs at the action's first true suspension point: after its transport
request is issued and before that request resolves. -/
def Event.respond (env : Env) (e : Event) (args : SendArgs) :
    Except RpcError SentMessage × Event × List Ev :=
  let chat := env.input_chat
  let c := Call.sendMessage chat args.reply_to args.content
  let ack := e.answer_task env
  (env.send_reply, ack.1, [Ev.taskScheduled, Ev.issued c] ++ ack.2 ++ [Ev.resolved c])

/-- `Event.reply`: creates the detached acknowledgment task, forces
`reply_to` to the event's message id overriding any caller value, and
sends the message into the resolved input chat. -/
def Event.reply (env : Env) (e : Event) (args : SendArgs) :
    Except RpcError SentMessage × Event × List Ev :=
  let chat := env.input_chat
  let args1 := { args with reply_to := some e.query.msg_id }
  let c := Call.sendMessage chat args1.reply_to args1.content
  let ack := e.answer_task env
  (env.send_reply, ack.1, [Ev.taskScheduled, Ev.issued c] ++ ack.2 ++ [Ev.resolved c])

/-- `Event.edit`: creates the detached acknowledgment task and edits the
message identified by the event's message id in the resolved input chat. -/
def Event.edit (env : Env) (e : Event) (content : String) :
    Except RpcError SentMessage × Event × List Ev :=
  let chat := env.input_chat
  let c := Call.editMessage chat e.query.msg_id content
  let ack := e.answer_task env
  (env.edit_reply, ack.1, [Ev.taskScheduled, Ev.issued c] ++ ack.2 ++ [Ev.resolved c])

/-- `Event.delete`: creates the detached acknowledgment task and deletes
exactly the single-element list `[msg_id]` in the resolved input chat. -/
def Event.delete (env : Env) (e : Event) :
    Except RpcError DeleteReport × Event × List Ev :=
  let chat := env.input_chat
  let c := Call.deleteMessages chat [e.query.msg_id]
  let ack := e.answer_task env
  (env.delete_reply, ack.1, [Ev.taskScheduled, Ev.issued c] ++ ack.2 ++ [Ev.resolved c])

/-- A raw update handed to `CallbackQuery.build`: either a bot callback
query (with its attached `_entities` snapshot) or any other update type. -/
inductive Update where
  | botCallbackQuery (q : UpdateBotCallbackQuery) (entities : List (Int × Entity))
  | other (tag : Nat) (entities : List (Int × Entity))
deriving DecidableEq

/-- `CallbackQuery.build(update)`: constructs an `Event` only for
`UpdateBotCallbackQuery`, copies the update's entity snapshot onto it, and
hands it to `_filter_event` (an external collaborator, modelled as the
function argument `filt`); any other update type yields nothing. -/
def build (filt : Event → Option Event) (u : Update) : Option Event :=
  match u with
  | .botCallbackQuery q ents => filt { Event.ofQuery q with entities := ents }
  | .other _ _ => none

/-- Extracts the id list of an issued delete request from a trace event. -/
def issuedDeleteIds : Ev → Option (List Int)
  | .issued (.deleteMessages _ ids) => some ids
  | _ => none

/-! ## Concrete fixtures used by witnesses and counterexamples -/

/-- A concrete raw query: queryId 42, sender 55, chat 100, message 7,
payload `b"buy"`. -/
def q0 : UpdateBotCallbackQuery :=
  { query_id := 42, user_id := 55, peer := .chat 100, msg_id := 7
    data := [98, 117, 121] }

/-- The event freshly constructed from `q0`. -/
def e0 : Event := { Event.ofQuery q0 with entities := [(55, ⟨55⟩)] }

/-- A concrete fetched message carrying resolved sender slots. -/
def m0 : Message :=
  { sender := some ⟨55⟩, input_sender := some (.withHash 55 (some 9)) }

/-- A benign environment: every collaborator succeeds. -/
def env0 : Env :=
  { input_chat := .withHash 100 (some 5)
    input_peer_of_chat := .withHash 55 (some 9)
    session_input_entity := .ok (.withHash 55 (some 9))
    fetch_message := .ok m0
    ack_reply := .ok 1
    send_reply := .ok 2
    edit_reply := .ok 3
    delete_reply := .ok 4 }

/-- An environment whose fetch reports not-found. -/
def envNF : Env := { env0 with fetch_message := .error ValueError.mk }

/-! ## Helper lemmas -/

/-- `get_message` never propagates an exception: every collaborator
outcome is caught. -/
theorem get_message_isOk (env : Env) (e : Event) :
    ∃ p, Event.get_message env e = .ok p := by
  unfold Event.get_message
  cases e.message with
  | some m => exact ⟨_, rfl⟩
  | none => cases env.fetch_message with
    | error _ => exact ⟨_, rfl⟩
    | ok m => exact ⟨_, rfl⟩

/-! ## Claim theorems -/

/-- C1: `answer()` is an idempotent one-shot latch: the first call flips
`answered` to true before issuing the single acknowledgment request
(carrying query id, cache time, alert, message and url), any later call
returns immediately with no request and no result, and `answered` stays
true whatever the transport outcome. -/
theorem answer_oneShotLatch (env env2 : Env) (e : Event)
    (m m2 : Option String) (ct ct2 : Int) (u u2 : Option String) (al al2 : Bool) :
    (e.answered = true → Event.answer env e m ct u al = (.ok none, e, [])) ∧
    (e.answered = false →
      (Event.answer env e m ct u al).2.1.answered = true ∧
      (Event.answer env e m ct u al).2.2 =
        [Ev.answeredSet,
         Ev.issued (Call.setBotCallbackAnswer e.query.query_id ct al m u),
         Ev.resolved (Call.setBotCallbackAnswer e.query.query_id ct al m u)] ∧
      Event.answer env2 (Event.answer env e m ct u al).2.1 m2 ct2 u2 al2 =
        (.ok none, (Event.answer env e m ct u al).2.1, [])) := by
  unfold Event.answer
  constructor
  · intro h; simp [h]
  · intro h; simp [h]
    cases env.ack_reply <;> simp

/-- Witness for C1 at the concrete event `e0`: the already-answered
instance returns immediately, and the fresh instance ends answered. -/
theorem answer_oneShotLatch_witness :
    Event.answer env0 { e0 with answered := true } none 0 none false =
      (.ok none, { e0 with answered := true }, []) ∧
    (Event.answer env0 e0 none 0 none false).2.1.answered = true :=
  ⟨(answer_oneShotLatch env0 env0 { e0 with answered := true }
      none none 0 0 none none false false).1 rfl,
   ((answer_oneShotLatch env0 env0 e0 none none 0 0 none none false
      false).2 rfl).1⟩

/-- C4: the sender-resolution chain never raises to its caller: for every
collaborator outcome and every event state it returns normally. -/
theorem refetch_sender_neverRaises (env : Env) (e : Event) :
    ∃ r, Event.refetch_sender env e = .ok r := by
  unfold Event.refetch_sender
  cases lookupEntity e.entities e.sender_id with
  | none => exact ⟨_, rfl⟩
  | some ent =>
    simp only
    cases env.input_peer_of_chat.accessHashTruthy with
    | true => exact ⟨_, rfl⟩
    | false =>
      simp only [Bool.false_eq_true, if_false]
      cases env.session_input_entity with
      | ok ip => exact ⟨_, rfl⟩
      | error _ =>
        simp only
        obtain ⟨⟨mres, e3, calls⟩, hp⟩ := get_message_isOk env
          { e with sender := some ent, input_sender := some env.input_peer_of_chat }
        rw [hp]
        cases mres with
        | some m => exact ⟨_, rfl⟩
        | none => exact ⟨_, rfl⟩

/-- C5: `get_message` returns the cached message with no fetch once one
is stored; on not-found it returns no message and no error with the slot
left unset; on success it caches and returns the fetched message. -/
theorem get_message_cacheAndFetch (env : Env) (e : Event) :
    (∀ m, e.message = some m → Event.get_message env e = .ok (some m, e, [])) ∧
    (e.message = none → ∀ v, env.fetch_message = .error v →
      Event.get_message env e = .ok (none, e,
        [Call.getMessages (if e.is_channel then some env.input_chat else none)
          e.query.msg_id])) ∧
    (e.message = none → ∀ m, env.fetch_message = .ok m →
      Event.get_message env e = .ok (some m, { e with message := some m },
        [Call.getMessages (if e.is_channel then some env.input_chat else none)
          e.query.msg_id])) := by
  refine ⟨?_, ?_, ?_⟩
  · intro m hm; unfold Event.get_message; rw [hm]
  · intro h v hv; unfold Event.get_message; rw [h, hv]
  · intro h m hm; unfold Event.get_message; rw [h, hm]

/-- Witness for C5: on `e0` the not-found fetch yields no message and no
error, and a successful fetch caches the message. -/
theorem get_message_cacheAndFetch_witness :
    Event.get_message envNF e0 = .ok (none, e0, [Call.getMessages none 7]) ∧
    Event.get_message env0 e0 = .ok
      (some m0, { e0 with message := some m0 }, [Call.getMessages none 7]) :=
  ⟨(get_message_cacheAndFetch envNF e0).2.1 rfl ValueError.mk rfl,
   (get_message_cacheAndFetch env0 e0).2.2 rfl _ rfl⟩

/-- C10: a failed fetch is not cached: after a not-found outcome the
message slot is still unset (the state is unchanged), so a later call
issues the fetch request again instead of replaying a cached emptiness. -/
theorem get_message_failureNotCached (env env2 : Env) (e : Event) (v : ValueError)
    (h : e.message = none) (hf : env.fetch_message = .error v) :
    Event.get_message env e = .ok (none, e,
      [Call.getMessages (if e.is_channel then some env.input_chat else none)
        e.query.msg_id]) ∧
    (∃ r, Event.get_message env2 e = .ok r ∧
      r.2.2 = [Call.getMessages
        (if e.is_channel then some env2.input_chat else none) e.query.msg_id]) := by
  constructor
  · unfold Event.get_message; rw [h, hf]
  · unfold Event.get_message; rw [h]
    cases env2.fetch_message with
    | error _ => exact ⟨_, rfl, rfl⟩
    | ok m => exact ⟨_, rfl, rfl⟩

/-- Witness for C10: concrete not-found run on `e0`, then a second call
with a working fetch issues the request again. -/
theorem get_message_failureNotCached_witness :
    Event.get_message envNF e0 = .ok (none, e0, [Call.getMessages none 7]) ∧
    (∃ r, Event.get_message env0 e0 = .ok r ∧ r.2.2 = [Call.getMessages none 7]) :=
  get_message_failureNotCached envNF env0 e0 ValueError.mk rfl rfl

/-- C3: the resolution chain stops at the first success: an absent sender
id leaves sender and input-sender unresolved with no request and no
error, and a snapshot hit whose chat-derived input peer has a truthy
access hash resolves both slots with the session cache never queried. -/
theorem refetch_sender_strictOrder (env : Env) (e : Event) :
    (lookupEntity e.entities e.sender_id = none → e.sender = none →
      e.input_sender = none → Event.refetch_sender env e = .ok (e, [])) ∧
    (∀ ent, lookupEntity e.entities e.sender_id = some ent →
      env.input_peer_of_chat.accessHashTruthy = true →
      Event.refetch_sender env e = .ok
        ({ e with sender := some ent,
                  input_sender := some env.input_peer_of_chat }, [])) := by
  constructor
  · intro h hs hi
    unfold Event.refetch_sender
    simp only [h]
    cases e
    simp_all
  · intro ent h hhash
    unfold Event.refetch_sender
    simp only [h, hhash, if_true]

/-- Witness for C3: the fresh event with an empty snapshot resolves to
nothing silently; `e0` with a valid-hash chat peer resolves at step 2
with an empty request trace. -/
theorem refetch_sender_strictOrder_witness :
    Event.refetch_sender env0 (Event.ofQuery q0) = .ok (Event.ofQuery q0, []) ∧
    Event.refetch_sender env0 e0 = .ok
      ({ e0 with sender := some ⟨55⟩,
                 input_sender := some (.withHash 55 (some 9)) }, []) :=
  ⟨(refetch_sender_strictOrder env0 (Event.ofQuery q0)).1 rfl rfl rfl,
   (refetch_sender_strictOrder env0 e0).2 ⟨55⟩ rfl rfl⟩

/-- C6: every response action leaves `answered` true, returns exactly its
own transport outcome (the acknowledgment outcome is never joined in),
and on a fresh event its trace schedules the acknowledgment task first,
then issues its own request, flips the latch and issues the
acknowledgment at the suspension point, all before its own request
resolves. -/
theorem actions_ackScheduledFirst (env : Env) (e : Event)
    (args : SendArgs) (content : String) :
    ((Event.respond env e args).2.1.answered = true ∧
     (Event.reply env e args).2.1.answered = true ∧
     (Event.edit env e content).2.1.answered = true ∧
     (Event.delete env e).2.1.answered = true) ∧
    ((Event.respond env e args).1 = env.send_reply ∧
     (Event.reply env e args).1 = env.send_reply ∧
     (Event.edit env e content).1 = env.edit_reply ∧
     (Event.delete env e).1 = env.delete_reply) ∧
    (e.answered = false →
      (Event.respond env e args).2.2 =
        [Ev.taskScheduled,
         Ev.issued (Call.sendMessage env.input_chat args.reply_to args.content),
         Ev.answeredSet,
         Ev.issued (Call.setBotCallbackAnswer e.query.query_id 0 false none none),
         Ev.resolved (Call.setBotCallbackAnswer e.query.query_id 0 false none none),
         Ev.resolved (Call.sendMessage env.input_chat args.reply_to args.content)] ∧
      (Event.reply env e args).2.2 =
        [Ev.taskScheduled,
         Ev.issued (Call.sendMessage env.input_chat (some e.query.msg_id) args.content),
         Ev.answeredSet,
         Ev.issued (Call.setBotCallbackAnswer e.query.query_id 0 false none none),
         Ev.resolved (Call.setBotCallbackAnswer e.query.query_id 0 false none none),
         Ev.resolved (Call.sendMessage env.input_chat (some e.query.msg_id) args.content)] ∧
      (Event.edit env e content).2.2 =
        [Ev.taskScheduled,
         Ev.issued (Call.editMessage env.input_chat e.query.msg_id content),
         Ev.answeredSet,
         Ev.issued (Call.setBotCallbackAnswer e.query.query_id 0 false none none),
         Ev.resolved (Call.setBotCallbackAnswer e.query.query_id 0 false none none),
         Ev.resolved (Call.editMessage env.input_chat e.query.msg_id content)] ∧
      (Event.delete env e).2.2 =
        [Ev.taskScheduled,
         Ev.issued (Call.deleteMessages env.input_chat [e.query.msg_id]),
         Ev.answeredSet,
         Ev.issued (Call.setBotCallbackAnswer e.query.query_id 0 false none none),
         Ev.resolved (Call.setBotCallbackAnswer e.query.query_id 0 false none none),
         Ev.resolved (Call.deleteMessages env.input_chat [e.query.msg_id])]) := by
  unfold Event.respond Event.reply Event.edit Event.delete
    Event.answer_task Event.answer
  by_cases h : e.answered
  · simp [h]
  · simp [h]
    cases env.ack_reply <;> simp

/-- Witness for C6: the concrete fresh event's delete run shows the full
scheduled-before-issued trace. -/
theorem actions_ackScheduledFirst_witness :
    (Event.delete env0 e0).2.2 =
      [Ev.taskScheduled,
       Ev.issued (Call.deleteMessages (.withHash 100 (some 5)) [7]),
       Ev.answeredSet,
       Ev.issued (Call.setBotCallbackAnswer 42 0 false none none),
       Ev.resolved (Call.setBotCallbackAnswer 42 0 false none none),
       Ev.resolved (Call.deleteMessages (.withHash 100 (some 5)) [7])] :=
  ((actions_ackScheduledFirst env0 e0 ⟨"ok", none⟩ "hi").2.2 rfl).2.2.2

/-- C7: `reply` is exactly `respond` with the reply-to option forced to
this event's message id, overriding any caller-supplied value, and the
message it sends goes to the resolved input chat threaded under the
original message. -/
theorem reply_forcesReplyTo (env : Env) (e : Event) (args : SendArgs) :
    Event.reply env e args =
      Event.respond env e { args with reply_to := some e.query.msg_id } ∧
    Ev.issued (Call.sendMessage env.input_chat (some e.query.msg_id) args.content) ∈
      (Event.reply env e args).2.2 := by
  constructor
  · rfl
  · unfold Event.reply
    simp

/-- C8: `delete` issues exactly one delete request, and its id list is
exactly `[messageId]` — never a batch of more. -/
theorem delete_singleMessageId (env : Env) (e : Event) :
    (Event.delete env e).2.2.filterMap issuedDeleteIds = [[e.query.msg_id]] := by
  unfold Event.delete Event.answer_task Event.answer
  by_cases h : e.answered
  · simp [h, issuedDeleteIds]
  · simp [h, issuedDeleteIds]
    cases env.ack_reply <;> simp [issuedDeleteIds]

/-- C9: the builder yields an event only for a bot callback query: any
other update type produces nothing (and no error), and a callback query
is handed, with its entity snapshot attached, to the external filter. -/
theorem build_onlyBotCallbackQuery (filt : Event → Option Event) (t : Nat)
    (ents qents : List (Int × Entity)) (q : UpdateBotCallbackQuery) :
    build filt (Update.other t ents) = none ∧
    build filt (Update.botCallbackQuery q qents) =
      filt { Event.ofQuery q with entities := qents } :=
  ⟨rfl, rfl⟩

/-! ## C2: the write-once claim fails on the code -/

/-- A fetched message whose already-resolved sender (id 88) differs from
the snapshot entity (id 77). -/
def mC2 : Message :=
  { sender := some ⟨88⟩, input_sender := some (.withHash 88 (some 3)) }

/-- Collaborators for the first resolution run: the chat-derived input
peer's access hash is `None`, the session cache fails, the fetch
succeeds with `mC2`. -/
def envC2a : Env := { env0 with
  input_peer_of_chat := .withHash 55 none
  session_input_entity := .error ValueError.mk
  fetch_message := .ok mC2 }

/-- The same collaborators after the session cache has learnt sender 55. -/
def envC2b : Env := { envC2a with
  session_input_entity := .ok (.withHash 55 (some 9)) }

/-- The event whose snapshot maps sender 55 to entity 77. -/
def eC2 : Event := { Event.ofQuery q0 with entities := [(55, ⟨77⟩)] }

/-- The state after the first resolution run on `eC2` under `envC2a`. -/
def sC2 : Event := { eC2 with
  sender := some ⟨88⟩
  input_sender := some (.withHash 88 (some 3))
  message := some mC2 }

/-- C2 counterexample: after a first resolution run leaves
`sender = some ⟨88⟩` and `input_sender = some (withHash 88 3)` (both
non-empty), a second run of the chain overwrites them with the different
values `some ⟨77⟩` (from the snapshot) and `withHash 55 9` (from the
session cache), refuting the claim that a populated slot is never
overwritten by a later run of the resolution chain. -/
theorem slots_overwritten_counterexample :
    Event.refetch_sender envC2a eC2 =
      .ok (sC2, [Call.sessionGetInputEntity 55, Call.getMessages none 7]) ∧
    sC2.sender = some ⟨88⟩ ∧
    sC2.input_sender = some (.withHash 88 (some 3)) ∧
    Event.refetch_sender envC2b sC2 =
      .ok ({ sC2 with sender := some ⟨77⟩,
                      input_sender := some (.withHash 55 (some 9)) },
           [Call.sessionGetInputEntity 55]) ∧
    some (⟨88⟩ : Entity) ≠ some (⟨77⟩ : Entity) :=
  ⟨rfl, rfl, rfl, rfl, by decide⟩

/-- C2 amended: only the message cache slot is write-once: once
`_message` is non-empty no operation (message fetch, resolution chain,
acknowledgment or any response action) replaces it, while `_sender` and
`_input_sender` may be reassigned by a later run of the resolution
chain or its message-fallback step. -/
theorem message_slot_writeOnce (env : Env) (e : Event) (m : Message)
    (args : SendArgs) (content : String) (ms : Option String) (ct : Int)
    (u : Option String) (al : Bool) (h : e.message = some m) :
    Event.get_message env e = .ok (some m, e, []) ∧
    (∀ r, Event.refetch_sender env e = .ok r → r.1.message = some m) ∧
    (Event.answer env e ms ct u al).2.1.message = some m ∧
    (Event.respond env e args).2.1.message = some m ∧
    (Event.reply env e args).2.1.message = some m ∧
    (Event.edit env e content).2.1.message = some m ∧
    (Event.delete env e).2.1.message = some m := by
  have hget : ∀ e2 : Event, e2.message = some m →
      Event.get_message env e2 = .ok (some m, e2, []) := by
    intro e2 h2; unfold Event.get_message; rw [h2]
  have hans : ∀ (ms2 : Option String) (ct2 : Int) (u2 : Option String)
      (al2 : Bool), (Event.answer env e ms2 ct2 u2 al2).2.1.message = some m := by
    intro ms2 ct2 u2 al2
    unfold Event.answer
    by_cases ha : e.answered
    · simp [ha, h]
    · cases env.ack_reply <;> simp [ha, h]
  refine ⟨hget e h, ?_, hans ms ct u al, ?_, ?_, ?_, ?_⟩
  · intro r hr
    unfold Event.refetch_sender at hr
    cases hl : lookupEntity e.entities e.sender_id with
    | none =>
      rw [hl] at hr
      simp only [Except.ok.injEq] at hr
      rw [← hr]
      simpa using h
    | some ent =>
      rw [hl] at hr
      by_cases hh : env.input_peer_of_chat.accessHashTruthy
      · simp only [hh, if_true, Except.ok.injEq] at hr
        rw [← hr]
        simpa using h
      · cases hsess : env.session_input_entity with
        | ok ip =>
          rw [hsess] at hr
          simp only [hh, Bool.false_eq_true, if_false, Except.ok.injEq] at hr
          rw [← hr]
          simpa using h
        | error v =>
          rw [hsess] at hr
          simp only at hr
          rw [hget { e with sender := some ent,
                            input_sender := some env.input_peer_of_chat }
                (by simpa using h)] at hr
          simp only [hh, Bool.false_eq_true, if_false, Except.ok.injEq] at hr
          rw [← hr]
          simpa using h
  · simpa [Event.respond, Event.answer_task] using hans none 0 none false
  · simpa [Event.reply, Event.answer_task] using hans none 0 none false
  · simpa [Event.edit, Event.answer_task] using hans none 0 none false
  · simpa [Event.delete, Event.answer_task] using hans none 0 none false

/-- Witness for the amended C2 theorem on a concrete event holding a
cached message: the fetch is skipped and `respond` keeps the slot. -/
theorem message_slot_writeOnce_witness :
    Event.get_message env0 { e0 with message := some m0 } =
      .ok (some m0, { e0 with message := some m0 }, []) ∧
    (Event.respond env0 { e0 with message := some m0 } ⟨"ok", none⟩).2.1.message =
      some m0 :=
  ⟨(message_slot_writeOnce env0 { e0 with message := some m0 } m0
      ⟨"ok", none⟩ "hi" none 0 none false rfl).1,
   (message_slot_writeOnce env0 { e0 with message := some m0 } m0
      ⟨"ok", none⟩ "hi" none 0 none false rfl).2.2.2.1⟩

end CallbackQuerySpec
